import Mathlib

/-!
Shallow embedding of the real-time fan-out layer of the MeWork backend
(`src/backend/src/utils/socketManager.ts`), together with theorems checking
the natural-language specification of that subsystem against the code.

Modelling conventions:
* A JavaScript `Map<string, string>` is an association list with at most one
  entry per key; `Map.set` replaces the entry for an existing key, `Map.delete`
  removes it, `Map.size` is the number of entries.
* Socket.IO rooms are modelled as a list of (socketId, roomName) membership
  pairs with set semantics: `socket.join` is idempotent insertion,
  `socket.leave` removes the pair, and the transport removes a socket from all
  of its rooms when it disconnects.
* `io.to(room).emit(event, payload)` is modelled by appending a record carrying
  the event name, the payload and the list of sockets that are members of the
  room at emit time; `socket.emit` appends a record whose only recipient is
  that socket.
* JavaScript values appearing in payloads are modelled by `JsVal`; a missing
  object field or argument is `JsVal.vUndefined`, and template-string interpolation
  of `undefined` produces the string "undefined", as in JavaScript.
* `Date` values are modelled by a natural-number clock `now` passed to each
  handler; `toISOString` is modelled by an opaque injective encoding.
-/

/-- A JavaScript value as it appears in socket payloads: `undefined`, a string,
a `Date`, or a nested object (association list of fields). -/
inductive JsVal where
  | vUndefined : JsVal
  | vStr : String → JsVal
  | vDate : Nat → JsVal
  | vObj : List (String × JsVal) → JsVal

/-- A JavaScript object: an association list of fields (JS objects cannot hold
two fields with the same key; objects built by the operations below never do). -/
abbrev Obj := List (String × JsVal)

/-- Template-string interpolation of a JavaScript value, as in `x`. A
missing value interpolates as the string "undefined". -/
def jsToString : JsVal → String
  | .vUndefined => "undefined"
  | .vStr s => s
  | .vDate t => "date:" ++ toString t
  | .vObj _ => "[object Object]"

/-- Opaque model of `Date#toISOString` at clock value `t`. -/
def isoString (t : Nat) : String := "iso:" ++ toString t

/-- Field lookup on a JavaScript object; a missing field reads as `undefined`. -/
def objGet (o : Obj) (k : String) : JsVal :=
  match o.find? (fun p => p.1 == k) with
  | some p => p.2
  | none => .vUndefined

/-- Setting (or overwriting) one field of a JavaScript object. -/
def objSet (o : Obj) (k : String) (v : JsVal) : Obj :=
  o.filter (fun p => !(p.1 == k)) ++ [(k, v)]

/-- Object spread: `\x7b...base, ...kvs\x7d` — the fields of `kvs` laid over
`base`, later fields overwriting earlier ones. -/
def objExtend (base : Obj) (kvs : Obj) : Obj :=
  kvs.foldl (fun acc kv => objSet acc kv.1 kv.2) base

/-- `Map.set` on a `Map<string, string>`: replaces any entry for the key. -/
def mapSet (m : List (String × String)) (k v : String) : List (String × String) :=
  m.filter (fun p => !(p.1 == k)) ++ [(k, v)]

/-- `Map.delete` on a `Map<string, string>`. -/
def mapDelete (m : List (String × String)) (k : String) : List (String × String) :=
  m.filter (fun p => !(p.1 == k))

/-- `Map.get` on a `Map<string, string>`. -/
def mapGet (m : List (String × String)) (k : String) : Option String :=
  (m.find? (fun p => p.1 == k)).map Prod.snd

/-- `Map.has` on a `Map<string, string>`. -/
def mapHas (m : List (String × String)) (k : String) : Bool :=
  (mapGet m k).isSome

/-- One `emit` call: the event name, the payload object, and the sockets the
event was delivered to (the members of the target room at emit time). -/
structure EmitRecord where
  event : String
  payload : Obj
  recipients : List String

/-- The in-memory state of the `SocketManager`: the `connectedUsers` map
(userId → socketId), the Socket.IO room membership pairs (socketId, room), and
the trace of emitted events. -/
structure State where
  connectedUsers : List (String × String)
  rooms : List (String × String)
  emitted : List EmitRecord

/-- The members of a room: `io.sockets.adapter.rooms.get(room)`. -/
def membersOf (st : State) (room : String) : List String :=
  (st.rooms.filter (fun p => p.2 == room)).map Prod.fst

/-- `socket.join(room)`: idempotent insertion into the room's member set. -/
def roomJoin (st : State) (sid room : String) : State :=
  if (sid, room) ∈ st.rooms then st
  else { st with rooms := st.rooms ++ [(sid, room)] }

/-- `socket.leave(room)`: removes the membership pair; a no-op when absent. -/
def roomLeave (st : State) (sid room : String) : State :=
  { st with rooms := st.rooms.filter (fun p => decide (p ≠ (sid, room))) }

/-- `io.to(room).emit(event, payload)`: records one delivery to every current
member of the room. -/
def emitToRoom (st : State) (room event : String) (payload : Obj) : State :=
  { st with emitted := st.emitted ++ [⟨event, payload, membersOf st room⟩] }

/-- `socket.emit(event, payload)`: records one delivery to that socket only. -/
def emitToSocket (st : State) (sid event : String) (payload : Obj) : State :=
  { st with emitted := st.emitted ++ [⟨event, payload, [sid]⟩] }

/-- The events a socket has received: the emit records listing it as a
recipient. -/
def deliveredTo (st : State) (sid : String) : List EmitRecord :=
  st.emitted.filter (fun r => decide (sid ∈ r.recipients))

/-- The emit records appended between an earlier state and a later one. -/
def newEvents (st st' : State) : List EmitRecord :=
  st'.emitted.drop st.emitted.length

/-- `getConnectedUsersCount`: `this.connectedUsers.size`. -/
def getConnectedUsersCount (st : State) : Nat :=
  st.connectedUsers.length

/-- `isUserConnected(userId)`: `this.connectedUsers.has(userId)`. -/
def isUserConnected (st : State) (userId : String) : Bool :=
  mapHas st.connectedUsers userId

/-- A user document as stored in the database (the `User` model carries an
`isActive` flag used for soft deletion elsewhere in the repository). -/
structure DbUser where
  id : String
  email : String
  userType : String
  name : String
  isActive : Bool
deriving DecidableEq

/-- The fields actually fetched by the middleware's
`.select('_id email userType name')` projection — note the projection does not
include the `isActive` flag. -/
structure UserProjection where
  id : String
  email : String
  userType : String
  name : String
deriving DecidableEq

/-- The `.select('_id email userType name')` projection of a user document. -/
def selectUserFields (u : DbUser) : UserProjection :=
  { id := u.id, email := u.email, userType := u.userType, name := u.name }

/-- The identity attached to a socket on successful authentication. -/
structure Identity where
  userId : String
  userType : String
  email : String
deriving DecidableEq

/-- An `AuthenticatedSocket`: the server-assigned socket id plus the optional
identity fields attached by the middleware. -/
structure AuthSocket where
  sid : String
  userId : Option String
  userType : Option String
  userEmail : Option String
deriving DecidableEq

/-- The connection handshake: `handshake.auth?.token` and
`handshake.headers?.authorization`. -/
structure Handshake where
  authToken : Option String
  headerAuth : Option String
deriving DecidableEq

/-- The environment the middleware reads from: `jwt.verify` composed with the
`.userId` field of the decoded payload (`none` models a verification throw),
and `User.findById`. -/
structure Env where
  jwtVerify : String → Option String
  findById : String → Option DbUser

/-- JavaScript `a || b` on possibly-absent strings: the empty string is falsy
and falls through to `b`, as does `undefined`. -/
def jsOr (a b : Option String) : Option String :=
  match a with
  | some s => if s = "" then b else some s
  | none => b

/-- Token extraction:
`handshake.auth?.token || handshake.headers?.authorization?.replace('Bearer ', '')`.
(JS `replace` with a string pattern replaces the first occurrence; the header
values considered here contain at most one occurrence of "Bearer ", where
`String.replace` coincides with it.) -/
def extractToken (hs : Handshake) : Option String :=
  jsOr hs.authToken (hs.headerAuth.map (fun s => s.replace "Bearer " ""))

/-- The authentication middleware (`setupMiddleware`): no token → error;
`jwt.verify` throw → error; `User.findById` returning null → error; otherwise
the identity from the projected user document is attached and the connection
proceeds. The projection never loads, and the middleware never consults, the
account's `isActive` flag. -/
def authMiddleware (env : Env) (hs : Handshake) : Except String Identity :=
  match extractToken hs with
  | none => .error "Authentication error: No token provided"
  | some t =>
    if t = "" then .error "Authentication error: No token provided"
    else
      match env.jwtVerify t with
      | none => .error "Authentication error: Invalid token"
      | some decodedUserId =>
        match (env.findById decodedUserId).map selectUserFields with
        | none => .error "Authentication error: User not found"
        | some user => .ok { userId := user.id, userType := user.userType, email := user.email }

/-- The `connection` handler (`setupEventHandlers`): store the connection in
`connectedUsers`, join the personal room `user:userId`, the role room
`userType`, and — for admins — the `admin` room; then emit the one-time
`connected` acknowledgment to the socket. -/
def handleConnection (now : Nat) (st : State) (s : AuthSocket) : State :=
  let st1 := match s.userId with
    | some u => { st with connectedUsers := mapSet st.connectedUsers u s.sid }
    | none => st
  let st2 := match s.userId with
    | some u => roomJoin st1 s.sid ("user:" ++ u)
    | none => st1
  let st3 := match s.userType with
    | some t => roomJoin st2 s.sid t
    | none => st2
  let st4 := if s.userType = some "admin" then roomJoin st3 s.sid "admin" else st3
  emitToSocket st4 s.sid "connected"
    [("message", .vStr "Successfully connected to server"),
     ("userId", match s.userId with | some u => .vStr u | none => .vUndefined),
     ("userType", match s.userType with | some t => .vStr t | none => .vUndefined),
     ("socketId", .vStr s.sid),
     ("timestamp", .vStr (isoString now))]

/-- The `disconnect` handler, together with the Socket.IO transport semantics
that a disconnecting socket leaves every room it is in; the handler itself
deletes the user's `connectedUsers` entry (whatever socket id it holds) when
the socket carries a userId. -/
def handleDisconnect (st : State) (s : AuthSocket) : State :=
  let st1 := { st with rooms := st.rooms.filter (fun p => !(p.1 == s.sid)) }
  match s.userId with
  | some u => { st1 with connectedUsers := mapDelete st1.connectedUsers u }
  | none => st1

/-- The `join_job_room` handler: `socket.join('job:' + jobId)`; a missing
argument interpolates as the string "undefined". -/
def handleJoinJobRoom (st : State) (s : AuthSocket) (jobId : JsVal) : State :=
  roomJoin st s.sid ("job:" ++ jsToString jobId)

/-- The `leave_job_room` handler: `socket.leave('job:' + jobId)`. -/
def handleLeaveJobRoom (st : State) (s : AuthSocket) (jobId : JsVal) : State :=
  roomLeave st s.sid ("job:" ++ jsToString jobId)

/-- The `kyc:status:request` handler: reply to the requesting socket with its
own userId and a timestamp when a userId is attached; otherwise do nothing. -/
def handleKycStatusRequest (now : Nat) (st : State) (s : AuthSocket) : State :=
  match s.userId with
  | some u =>
      emitToSocket st s.sid "kyc:status:response"
        [("userId", .vStr u), ("timestamp", .vDate now)]
  | none => st

/-- `emitKYCStatusUpdate(userId, statusData)`: emit `kyc:status:update` with
`\x7b...statusData, timestamp\x7d` to the personal room, then
`kyc:admin:update` with `\x7buserId, ...statusData, timestamp\x7d` to the
`admin` room. -/
def emitKYCStatusUpdate (now : Nat) (st : State) (userId : String) (statusData : Obj) : State :=
  let st1 := emitToRoom st ("user:" ++ userId) "kyc:status:update"
    (objSet statusData "timestamp" (.vDate now))
  emitToRoom st1 "admin" "kyc:admin:update"
    (objSet (objExtend [("userId", .vStr userId)] statusData) "timestamp" (.vDate now))

/-- The payload built by `notifyNewApplication` for both of its emits. -/
def newApplicationPayload (now : Nat) (applicationData : Obj) : Obj :=
  [("type", .vStr "new_application"),
   ("application", .vObj applicationData),
   ("timestamp", .vStr (isoString now)),
   ("message", .vStr ("New application received for \"" ++
      jsToString (objGet applicationData "jobTitle") ++ "\""))]

/-- `notifyNewApplication(applicationData, employerId)`: emit `new_application`
to the employer's personal room, then the same payload to the job's topic room
`job:` + `applicationData.jobId`. -/
def notifyNewApplication (now : Nat) (st : State) (applicationData : Obj)
    (employerId : String) : State :=
  let st1 := emitToRoom st ("user:" ++ employerId) "new_application"
    (newApplicationPayload now applicationData)
  emitToRoom st1 ("job:" ++ jsToString (objGet applicationData "jobId"))
    "new_application" (newApplicationPayload now applicationData)

/-- Gateway composition: a middleware error refuses the connection before the
`connection` event ever fires (the handler never runs, no state changes); on
success the handler runs with the attached identity. -/
def attemptConnection (env : Env) (now : Nat) (st : State) (hs : Handshake)
    (sid : String) : State :=
  match authMiddleware env hs with
  | .error _ => st
  | .ok idn =>
      handleConnection now st
        { sid := sid, userId := some idn.userId, userType := some idn.userType,
          userEmail := some idn.email }

/-- An inbound client control message mutating topic-group membership. -/
inductive ClientMsg where
  | joinJob (arg : JsVal)
  | leaveJob (arg : JsVal)

/-- Processing of one inbound control message by the connection's handlers. -/
def processMsg (st : State) (s : AuthSocket) : ClientMsg → State
  | .joinJob arg => handleJoinJobRoom st s arg
  | .leaveJob arg => handleLeaveJobRoom st s arg

/-- Processing of a sequence of inbound control messages, in arrival order. -/
def processMsgs (st : State) (s : AuthSocket) (msgs : List ClientMsg) : State :=
  msgs.foldl (fun acc m => processMsg acc s m) st

/-! ### Helper lemmas -/

theorem data_append (a b : String) : (a ++ b).data = a.data ++ b.data := by
  cases a; cases b; rfl

theorem job_room_data (x : String) :
    ("job:" ++ x).data = 'j' :: 'o' :: 'b' :: ':' :: x.data := by
  cases x; rfl

/-- A string whose first character is not `j` is not a job room name. -/
theorem ne_job_of_head (g : String) (c : Char) (l : List Char) (hg : g.data = c :: l)
    (hc : c ≠ 'j') (x : String) : g ≠ "job:" ++ x := by
  intro h
  have h2 := congrArg String.data h
  rw [hg, job_room_data] at h2
  exact hc (List.cons.injEq .. ▸ h2).1

theorem user_room_data (u : String) :
    ("user:" ++ u).data = 'u' :: 's' :: 'e' :: 'r' :: ':' :: u.data := by
  cases u; rfl

/-- Personal rooms never collide with job topic rooms. -/
theorem user_room_ne_job (u x : String) : "user:" ++ u ≠ "job:" ++ x :=
  ne_job_of_head _ 'u' _ (user_room_data u) (by decide) x

/-- The admin room never collides with job topic rooms. -/
theorem admin_ne_job (x : String) : ("admin" : String) ≠ "job:" ++ x :=
  ne_job_of_head _ 'a' ('d' :: 'm' :: 'i' :: 'n' :: []) rfl (by decide) x

theorem find?_filter_self_none {α : Type} (m : List (String × α)) (k : String) :
    (m.filter (fun p => !(p.1 == k))).find? (fun p => p.1 == k) = none := by
  rw [List.find?_eq_none]
  intro x hx
  rw [List.mem_filter] at hx
  simpa using hx.2

theorem find?_filter_ne_key {α : Type} (m : List (String × α)) (k k' : String) (h : k' ≠ k) :
    (m.filter (fun p => !(p.1 == k))).find? (fun p => p.1 == k') =
      m.find? (fun p => p.1 == k') := by
  induction m with
  | nil => rfl
  | cons a as ih =>
    have h2 : (k == k') = false := by simp [Ne.symm h]
    by_cases hak : a.1 = k
    · have h1 : (a.1 == k') = false := by simp [hak, Ne.symm h]
      simp [List.filter_cons, hak, List.find?_cons, h1, h2, ih]
    · by_cases hak' : a.1 = k'
      · simp [List.filter_cons, hak, List.find?_cons, hak', h, ih]
      · simp [List.filter_cons, hak, List.find?_cons, hak', h, ih]

theorem mapGet_mapSet_self (m : List (String × String)) (k v : String) :
    mapGet (mapSet m k v) k = some v := by
  unfold mapGet mapSet
  rw [List.find?_append, find?_filter_self_none]
  simp [List.find?_cons]

theorem mapGet_mapSet_ne (m : List (String × String)) (k v k' : String) (h : k' ≠ k) :
    mapGet (mapSet m k v) k' = mapGet m k' := by
  unfold mapGet mapSet
  rw [List.find?_append, find?_filter_ne_key m k k' h]
  have h1 : ((k, v).1 == k') = false := by simp [Ne.symm h]
  simp [List.find?_cons, h1]

theorem mapGet_mapDelete_self (m : List (String × String)) (k : String) :
    mapGet (mapDelete m k) k = none := by
  unfold mapGet mapDelete
  rw [find?_filter_self_none]
  rfl

theorem mapGet_mapDelete_ne (m : List (String × String)) (k k' : String) (h : k' ≠ k) :
    mapGet (mapDelete m k) k' = mapGet m k' := by
  unfold mapGet mapDelete
  rw [find?_filter_ne_key m k k' h]

/-- Re-setting an existing key does not change `Map.size`. -/
theorem length_mapSet_mapSet (m : List (String × String)) (k v1 v2 : String) :
    (mapSet (mapSet m k v1) k v2).length = (mapSet m k v1).length := by
  simp [mapSet, List.filter_append, List.filter_filter]

theorem objGet_objSet_self (o : Obj) (k : String) (v : JsVal) :
    objGet (objSet o k v) k = v := by
  unfold objGet objSet
  rw [List.find?_append, find?_filter_self_none]
  simp [List.find?_cons]

theorem objGet_objSet_ne (o : Obj) (k : String) (v : JsVal) (k' : String) (h : k' ≠ k) :
    objGet (objSet o k v) k' = objGet o k' := by
  unfold objGet objSet
  rw [List.find?_append, find?_filter_ne_key o k k' h]
  have h1 : ((k, v).1 == k') = false := by simp [Ne.symm h]
  simp [List.find?_cons, h1]

theorem objExtend_cons (b : Obj) (a : String × JsVal) (as : Obj) :
    objExtend b (a :: as) = objExtend (objSet b a.1 a.2) as := rfl

theorem objGet_objExtend_not_mem (b kvs : Obj) (k : String)
    (h : k ∉ kvs.map Prod.fst) : objGet (objExtend b kvs) k = objGet b k := by
  induction kvs generalizing b with
  | nil => rfl
  | cons a as ih =>
    rw [List.map_cons] at h
    rw [objExtend_cons, ih _ (fun hm => h (List.mem_cons_of_mem _ hm)),
      objGet_objSet_ne _ _ _ _ (fun hk => h (by rw [hk]; exact List.mem_cons_self _ _))]

theorem objGet_objExtend_mem (b kvs : Obj) (k : String)
    (hnd : (kvs.map Prod.fst).Nodup) (h : k ∈ kvs.map Prod.fst) :
    objGet (objExtend b kvs) k = objGet kvs k := by
  induction kvs generalizing b with
  | nil => simp at h
  | cons a as ih =>
    rw [List.map_cons, List.nodup_cons] at hnd
    by_cases hk : k = a.1
    · subst hk
      rw [objExtend_cons, objGet_objExtend_not_mem _ _ _ hnd.1, objGet_objSet_self]
      simp [objGet, List.find?_cons]
    · rw [List.map_cons] at h
      have hmem : k ∈ as.map Prod.fst := by
        cases List.mem_cons.mp h with
        | inl h' => exact absurd h' hk
        | inr h' => exact h'
      rw [objExtend_cons, ih _ hnd.2 hmem]
      have h1 : (a.1 == k) = false := by
        simp only [beq_eq_false_iff_ne, ne_eq]
        exact fun hh => hk hh.symm
      simp [objGet, List.find?_cons, h1]

theorem rooms_emitToRoom (st : State) (r e : String) (p : Obj) :
    (emitToRoom st r e p).rooms = st.rooms := rfl

theorem rooms_emitToSocket (st : State) (sid e : String) (p : Obj) :
    (emitToSocket st sid e p).rooms = st.rooms := rfl

theorem connectedUsers_roomJoin (st : State) (sid g : String) :
    (roomJoin st sid g).connectedUsers = st.connectedUsers := by
  unfold roomJoin; split <;> rfl

theorem connectedUsers_roomLeave (st : State) (sid g : String) :
    (roomLeave st sid g).connectedUsers = st.connectedUsers := rfl

theorem emitted_roomJoin (st : State) (sid g : String) :
    (roomJoin st sid g).emitted = st.emitted := by
  unfold roomJoin; split <;> rfl

theorem mem_rooms_roomJoin (st : State) (sid room c g : String) :
    (c, g) ∈ (roomJoin st sid room).rooms ↔
      (c, g) ∈ st.rooms ∨ (c = sid ∧ g = room) := by
  unfold roomJoin
  split
  · constructor
    · exact Or.inl
    · rintro (h | ⟨rfl, rfl⟩)
      · exact h
      · assumption
  · simp [List.mem_append, Prod.ext_iff]

theorem mem_rooms_self_roomJoin (st : State) (sid room : String) :
    (sid, room) ∈ (roomJoin st sid room).rooms :=
  (mem_rooms_roomJoin st sid room sid room).mpr (Or.inr ⟨rfl, rfl⟩)

theorem roomJoin_of_mem (st : State) (sid room : String)
    (h : (sid, room) ∈ st.rooms) : roomJoin st sid room = st := by
  unfold roomJoin; rw [if_pos h]

theorem mem_rooms_roomLeave (st : State) (sid room c g : String) :
    (c, g) ∈ (roomLeave st sid room).rooms ↔
      (c, g) ∈ st.rooms ∧ (c, g) ≠ (sid, room) := by
  simp only [roomLeave, List.mem_filter, decide_eq_true_eq]

theorem roomLeave_of_not_mem (st : State) (sid room : String)
    (h : (sid, room) ∉ st.rooms) : roomLeave st sid room = st := by
  unfold roomLeave
  have hf : st.rooms.filter (fun p => decide (p ≠ (sid, room))) = st.rooms := by
    apply List.filter_eq_self.mpr
    intro a ha
    simp only [decide_eq_true_eq]
    rintro rfl
    exact h ha
  rw [hf]

theorem connectedUsers_handleConnection (now : Nat) (st : State) (s : AuthSocket)
    (u : String) (h : s.userId = some u) :
    (handleConnection now st s).connectedUsers = mapSet st.connectedUsers u s.sid := by
  unfold handleConnection
  rw [h]
  cases ht : s.userType with
  | none => simp [emitToSocket, connectedUsers_roomJoin]
  | some t =>
    by_cases hadm : (some t : Option String) = some "admin" <;>
      simp [emitToSocket, connectedUsers_roomJoin, hadm]

/-- Room membership after the `connection` handler: the previous memberships
plus the personal room, the role room, and (for admins) the admin room. -/
theorem handleConnection_rooms_spec (now : Nat) (st : State) (s : AuthSocket)
    (c g : String) :
    (c, g) ∈ (handleConnection now st s).rooms ↔
      (c, g) ∈ st.rooms
      ∨ (∃ u, s.userId = some u ∧ c = s.sid ∧ g = "user:" ++ u)
      ∨ (∃ t, s.userType = some t ∧ c = s.sid ∧ g = t)
      ∨ (s.userType = some "admin" ∧ c = s.sid ∧ g = "admin") := by
  unfold handleConnection
  cases hu : s.userId <;> cases ht : s.userType
  · simp [rooms_emitToSocket, mem_rooms_roomJoin]
  · rename_i t
    by_cases hadm' : t = "admin" <;>
      simp [rooms_emitToSocket, mem_rooms_roomJoin, hadm']
  · simp [rooms_emitToSocket, mem_rooms_roomJoin]
  · rename_i u t
    by_cases hadm' : t = "admin" <;>
      simp [rooms_emitToSocket, mem_rooms_roomJoin, hadm'] <;> tauto

theorem isUserConnected_handleDisconnect_self (st : State) (s : AuthSocket)
    (u : String) (h : s.userId = some u) :
    isUserConnected (handleDisconnect st s) u = false := by
  simp [handleDisconnect, h, isUserConnected, mapHas, mapGet_mapDelete_self]

theorem not_mem_rooms_handleDisconnect (st : State) (s : AuthSocket) (g : String) :
    (s.sid, g) ∉ (handleDisconnect st s).rooms := by
  unfold handleDisconnect
  cases s.userId <;> simp [List.mem_filter]

theorem mapGet_handleDisconnect_ne (st : State) (s : AuthSocket) (u v : String)
    (h : s.userId = some u) (hv : v ≠ u) :
    mapGet (handleDisconnect st s).connectedUsers v = mapGet st.connectedUsers v := by
  simp only [handleDisconnect, h]
  exact mapGet_mapDelete_ne _ _ _ hv

/-- One inbound `join_job_room`/`leave_job_room` message can only change
membership in rooms of the form `job:...`. -/
theorem processMsg_rooms_non_job (st : State) (s : AuthSocket) (m : ClientMsg)
    (c g : String) (h : ∀ x, g ≠ "job:" ++ x) :
    ((c, g) ∈ (processMsg st s m).rooms ↔ (c, g) ∈ st.rooms) := by
  cases m with
  | joinJob arg =>
    simp only [processMsg, handleJoinJobRoom]
    rw [mem_rooms_roomJoin]
    constructor
    · rintro (hh | ⟨rfl, rfl⟩)
      · exact hh
      · exact absurd rfl (h _)
    · exact Or.inl
  | leaveJob arg =>
    simp only [processMsg, handleLeaveJobRoom]
    rw [mem_rooms_roomLeave]
    constructor
    · exact And.left
    · intro hh
      refine ⟨hh, fun he => ?_⟩
      exact h _ (congrArg Prod.snd he)

/-- A whole sequence of topic-control messages cannot change membership in any
room that is not a `job:...` room. -/
theorem processMsgs_rooms_non_job (msgs : List ClientMsg) (st : State)
    (s : AuthSocket) (c g : String) (h : ∀ x, g ≠ "job:" ++ x) :
    ((c, g) ∈ (processMsgs st s msgs).rooms ↔ (c, g) ∈ st.rooms) := by
  induction msgs generalizing st with
  | nil => exact Iff.rfl
  | cons m ms ih =>
    rw [show processMsgs st s (m :: ms) = processMsgs (processMsg st s m) s ms from rfl,
      ih (processMsg st s m), processMsg_rooms_non_job _ _ _ _ _ h]

theorem mem_membersOf (st : State) (c g : String) :
    c ∈ membersOf st g ↔ (c, g) ∈ st.rooms := by
  simp only [membersOf, List.mem_map, List.mem_filter]
  constructor
  · rintro ⟨p, ⟨hp, hg⟩, hc⟩
    have : p = (c, g) := by
      cases p
      simp only [beq_iff_eq] at hg
      simp_all
    exact this ▸ hp
  · intro h
    exact ⟨(c, g), ⟨h, by simp⟩, rfl⟩

/-! ### Concrete scenario states used by counterexamples and witnesses -/

/-- First tab of user u1. -/
def tabOne : AuthSocket := ⟨"c1", some "u1", some "student", some "u1@mail"⟩

/-- Second simultaneous tab of the same user u1. -/
def tabTwo : AuthSocket := ⟨"c2", some "u1", some "student", some "u1@mail"⟩

/-- State after user u1 opened two simultaneous authenticated connections. -/
def stTwoTabs : State := handleConnection 1 (handleConnection 0 ⟨[], [], []⟩ tabOne) tabTwo

/-- State after the first of u1's two connections disconnected (the second one
never disconnected). -/
def stAfterDrop : State := handleDisconnect stTwoTabs tabOne

/-! ### Claim theorems -/

/-- Claim C1, counterexample: with two simultaneously open authenticated
connections c1 and c2 of user u1 both registered, the registry entry for u1
holds only the later connection c2 — it does not contain c1 — and
`connectionCount` is 1, not 2: the `Map<string, string>` silently overwrites
on the second registration. -/
theorem C1_counterexample :
    mapGet stTwoTabs.connectedUsers "u1" = some "c2"
    ∧ mapGet stTwoTabs.connectedUsers "u1" ≠ some "c1"
    ∧ getConnectedUsersCount stTwoTabs = 1 := by
  refine ⟨by decide, by decide, by decide⟩

/-- Claim C1 as amended: the Connection Registry maps each userId to the single
most recently registered connection id; registering a second simultaneous
connection for the same user overwrites the first, the user stays online, and
`connectionCount` counts the user once (it is unchanged by the second
registration). -/
theorem C1_registry_overwrites (now1 now2 : Nat) (st : State) (s1 s2 : AuthSocket)
    (u : String) (h1 : s1.userId = some u) (h2 : s2.userId = some u) :
    mapGet (handleConnection now2 (handleConnection now1 st s1) s2).connectedUsers u
        = some s2.sid
    ∧ isUserConnected (handleConnection now2 (handleConnection now1 st s1) s2) u = true
    ∧ getConnectedUsersCount (handleConnection now2 (handleConnection now1 st s1) s2)
        = getConnectedUsersCount (handleConnection now1 st s1) := by
  have e1 := connectedUsers_handleConnection now1 st s1 u h1
  have e2 := connectedUsers_handleConnection now2 (handleConnection now1 st s1) s2 u h2
  refine ⟨?_, ?_, ?_⟩
  · rw [e2, mapGet_mapSet_self]
  · rw [isUserConnected, mapHas, e2, mapGet_mapSet_self]
    rfl
  · rw [getConnectedUsersCount, getConnectedUsersCount, e2, e1, length_mapSet_mapSet]

/-- Witness for C1's amended theorem at the two-tabs scenario. -/
theorem C1_witness :
    tabOne.userId = some "u1" ∧ tabTwo.userId = some "u1"
    ∧ mapGet stTwoTabs.connectedUsers "u1" = some "c2"
    ∧ isUserConnected stTwoTabs "u1" = true := by
  have h := C1_registry_overwrites 1 0 ⟨[], [], []⟩ tabOne tabTwo "u1" rfl rfl
  exact ⟨rfl, rfl, h.1, h.2.1⟩

/-- Claim C2, counterexample: user u1 holds two open connections c1 and c2;
after c1 disconnects (c2 was registered last and never disconnected), the
disconnect handler deletes u1's registry entry unconditionally, so
`isUserConnected` reports u1 offline even though c2 is still open —
contradicting "if the same user still holds another open connection, the user
remains online". -/
theorem C2_counterexample :
    mapGet stTwoTabs.connectedUsers "u1" = some "c2"
    ∧ isUserConnected stAfterDrop "u1" = false := by
  refine ⟨by decide, by decide⟩

/-- Claim C2 as amended: after any disconnect of a connection of user u, the
disconnected connection id is absent from every group's member set, but the
registry entry for u is deleted unconditionally — `isOnline(u)` becomes false
even when the user still holds another open connection — while entries of
other users are untouched. -/
theorem C2_disconnect_unregisters (st : State) (s : AuthSocket) (u : String)
    (h : s.userId = some u) :
    isUserConnected (handleDisconnect st s) u = false
    ∧ (∀ g, (s.sid, g) ∉ (handleDisconnect st s).rooms)
    ∧ (∀ v, v ≠ u → mapGet (handleDisconnect st s).connectedUsers v
        = mapGet st.connectedUsers v) :=
  ⟨isUserConnected_handleDisconnect_self st s u h,
   fun g => not_mem_rooms_handleDisconnect st s g,
   fun v hv => mapGet_handleDisconnect_ne st s u v h hv⟩

/-- Witness for C2's amended theorem at the two-tabs scenario. -/
theorem C2_witness :
    tabOne.userId = some "u1"
    ∧ isUserConnected stAfterDrop "u1" = false
    ∧ ("c1", "user:u1") ∉ stAfterDrop.rooms
    ∧ mapGet stAfterDrop.connectedUsers "u2" = mapGet stTwoTabs.connectedUsers "u2" := by
  have h := C2_disconnect_unregisters stTwoTabs tabOne "u1" rfl
  exact ⟨rfl, h.1, h.2.1 "user:u1", h.2.2 "u2" (by decide)⟩

/-- Environment holding a deactivated account u1 (`isActive := false`) and a
valid token "tok" whose decoded subject is u1. -/
def envDeactivated : Env :=
  { jwtVerify := fun t => if t = "tok" then some "u1" else none,
    findById := fun uid =>
      if uid = "u1" then some ⟨"u1", "u1@mail", "student", "Eve", false⟩ else none }

/-- Handshake presenting the validly signed token "tok". -/
def hsDeactivated : Handshake := ⟨some "tok", none⟩

/-- Claim C3, counterexample: a connection attempt presenting a validly signed
token whose account record exists but is deactivated (`isActive = false`) is
accepted by the middleware — authentication succeeds and the identity is
attached — rather than failing with UserNotFound. -/
theorem C3_counterexample :
    authMiddleware envDeactivated hsDeactivated = .ok ⟨"u1", "student", "u1@mail"⟩
    ∧ (envDeactivated.findById "u1").map DbUser.isActive = some false :=
  ⟨rfl, rfl⟩

/-- Claim C3 as amended: identity verification rejects only a missing account
with UserNotFound; whenever the decoded subject resolves to an existing account
record, authentication succeeds regardless of the record's active-flag — the
middleware's projection (`_id email userType name`) does not even load the flag
and the middleware never consults it. -/
theorem C3_deactivated_account_passes (env : Env) (hs : Handshake) (t d : String)
    (u : DbUser) (htok : extractToken hs = some t) (hne : t ≠ "")
    (hjwt : env.jwtVerify t = some d) (hdb : env.findById d = some u) :
    authMiddleware env hs = .ok ⟨u.id, u.userType, u.email⟩ := by
  simp only [authMiddleware, htok, if_neg hne, hjwt, hdb, Option.map_some']
  rfl

/-- Witness for C3's amended theorem at the deactivated-account environment. -/
theorem C3_witness :
    extractToken hsDeactivated = some "tok"
    ∧ ("tok" : String) ≠ ""
    ∧ envDeactivated.jwtVerify "tok" = some "u1"
    ∧ envDeactivated.findById "u1" = some ⟨"u1", "u1@mail", "student", "Eve", false⟩
    ∧ authMiddleware envDeactivated hsDeactivated = .ok ⟨"u1", "student", "u1@mail"⟩ :=
  ⟨rfl, by decide, rfl, rfl,
   C3_deactivated_account_passes envDeactivated hsDeactivated "tok" "u1"
     ⟨"u1", "u1@mail", "student", "Eve", false⟩ rfl (by decide) rfl rfl⟩

/-- Claim C4, confirmed: a connection attempt that fails authentication (no
token, invalid/expired token, or unknown user) is rejected before the
`connection` handler runs: the state is unchanged — it is never added to the
registry or to any group, and `connectionCount()` is unaffected. -/
theorem C4_failed_auth_leaves_state_unchanged (env : Env) (now : Nat) (st : State)
    (hs : Handshake) (sid : String) (e : String)
    (h : authMiddleware env hs = .error e) :
    attemptConnection env now st hs sid = st
    ∧ (attemptConnection env now st hs sid).connectedUsers = st.connectedUsers
    ∧ (attemptConnection env now st hs sid).rooms = st.rooms
    ∧ getConnectedUsersCount (attemptConnection env now st hs sid)
        = getConnectedUsersCount st := by
  have he : attemptConnection env now st hs sid = st := by
    unfold attemptConnection
    rw [h]
  exact ⟨he, by rw [he], by rw [he], by rw [he]⟩

/-- Environment in which every token fails signature verification (e.g. it is
expired), as in the spec's scenario for connection C. -/
def envExpired : Env := { jwtVerify := fun _ => none, findById := fun _ => none }

/-- Witness for C4 at an expired-token connection attempt against a populated
state. -/
theorem C4_witness :
    authMiddleware envExpired ⟨some "expired", none⟩
      = .error "Authentication error: Invalid token"
    ∧ attemptConnection envExpired 7 stTwoTabs ⟨some "expired", none⟩ "c9" = stTwoTabs
    ∧ getConnectedUsersCount (attemptConnection envExpired 7 stTwoTabs
        ⟨some "expired", none⟩ "c9") = getConnectedUsersCount stTwoTabs :=
  ⟨rfl,
   (C4_failed_auth_leaves_state_unchanged envExpired 7 stTwoTabs ⟨some "expired", none⟩
     "c9" "Authentication error: Invalid token" rfl).1,
   (C4_failed_auth_leaves_state_unchanged envExpired 7 stTwoTabs ⟨some "expired", none⟩
     "c9" "Authentication error: Invalid token" rfl).2.2.2⟩

/-- A field not present in an object reads as `undefined`. -/
theorem objGet_eq_undefined_of_not_mem (o : Obj) (k : String) (h : k ∉ o.map Prod.fst) :
    objGet o k = .vUndefined := by
  unfold objGet
  have hf : o.find? (fun p => p.1 == k) = none := by
    rw [List.find?_eq_none]
    intro x hx
    have hne : x.1 ≠ k := fun hk => h (hk ▸ List.mem_map_of_mem Prod.fst hx)
    simp [hne]
  rw [hf]

theorem objGet_singleton_ne (k0 : String) (v : JsVal) (k : String) (h : k ≠ k0) :
    objGet [(k0, v)] k = .vUndefined := by
  have h1 : (k0 == k) = false := by simp [Ne.symm h]
  simp [objGet, List.find?_cons, h1]

/-- The i-th event emitted between two states. -/
def nthEvent (st st' : State) (i : Nat) : EmitRecord :=
  (newEvents st st').getD i ⟨"", [], []⟩

/-- The two emit records appended by `emitKYCStatusUpdate`. -/
theorem newEvents_emitKYCStatusUpdate (now : Nat) (st : State) (uid : String)
    (sd : Obj) :
    newEvents st (emitKYCStatusUpdate now st uid sd) =
      [⟨"kyc:status:update", objSet sd "timestamp" (.vDate now),
        membersOf st ("user:" ++ uid)⟩,
       ⟨"kyc:admin:update",
        objSet (objExtend [("userId", .vStr uid)] sd) "timestamp" (.vDate now),
        membersOf st "admin"⟩] := by
  simp [newEvents, emitKYCStatusUpdate, emitToRoom, membersOf, List.append_assoc]

/-- State with one admin connection a1 in the admin room and one connection s1
of user u1 in u1's personal room. -/
def stAdminOnline : State := ⟨[("adm", "a1"), ("u1", "s1")], [("a1", "admin"), ("s1", "user:u1")], []⟩

/-- The KYC status payload used in the C5 scenario. -/
def kycStatusData : Obj := [("status", .vStr "approved")]

/-- Claim C5, counterexample: dispatching the KYC trigger for subject u1 with
payload `\x7bstatus: "approved"\x7d`, the admin-group connection a1 receives a
payload that carries a `userId` field (set to "u1") which the domain payload
does not contain — so the admin recipient does not receive the same domain
payload with only a timestamp field added. -/
theorem C5_counterexample :
    (deliveredTo (emitKYCStatusUpdate 5 stAdminOnline "u1" kycStatusData) "a1").length = 1
    ∧ objGet ((deliveredTo (emitKYCStatusUpdate 5 stAdminOnline "u1" kycStatusData)
        "a1").headD ⟨"", [], []⟩).payload "userId" = JsVal.vStr "u1"
    ∧ objGet kycStatusData "userId" = JsVal.vUndefined
    ∧ ("userId" : String) ≠ "timestamp" :=
  ⟨rfl, rfl, rfl, by decide⟩

/-- Claim C5 as amended: the KYC trigger emits two events — connections in the
subject's personal group receive `kyc:status:update` carrying the domain
payload with only a timestamp field added; connections in the admin group
receive a different event, `kyc:admin:update`, carrying the domain payload with
a timestamp field and additionally a `userId` field set to the subject's id
(unless the payload itself carries a `userId` field, which then wins). -/
theorem C5_kyc_fanout (now : Nat) (st : State) (uid : String) (sd : Obj)
    (hnd : (sd.map Prod.fst).Nodup) :
    (newEvents st (emitKYCStatusUpdate now st uid sd)).map EmitRecord.event
        = ["kyc:status:update", "kyc:admin:update"]
    ∧ (newEvents st (emitKYCStatusUpdate now st uid sd)).map EmitRecord.recipients
        = [membersOf st ("user:" ++ uid), membersOf st "admin"]
    ∧ objGet (nthEvent st (emitKYCStatusUpdate now st uid sd) 0).payload "timestamp"
        = .vDate now
    ∧ (∀ k, k ≠ "timestamp" →
        objGet (nthEvent st (emitKYCStatusUpdate now st uid sd) 0).payload k = objGet sd k)
    ∧ objGet (nthEvent st (emitKYCStatusUpdate now st uid sd) 1).payload "timestamp"
        = .vDate now
    ∧ (∀ k, k ≠ "timestamp" → k ≠ "userId" →
        objGet (nthEvent st (emitKYCStatusUpdate now st uid sd) 1).payload k = objGet sd k)
    ∧ ("userId" ∉ sd.map Prod.fst →
        objGet (nthEvent st (emitKYCStatusUpdate now st uid sd) 1).payload "userId"
          = .vStr uid) := by
  have he := newEvents_emitKYCStatusUpdate now st uid sd
  refine ⟨by rw [he]; rfl, by rw [he]; rfl, ?_, ?_, ?_, ?_, ?_⟩
  · rw [nthEvent, he]
    exact objGet_objSet_self _ _ _
  · intro k hk
    rw [nthEvent, he]
    exact objGet_objSet_ne _ _ _ _ hk
  · rw [nthEvent, he]
    exact objGet_objSet_self _ _ _
  · intro k hk hk2
    rw [nthEvent, he]
    rw [show ((([⟨"kyc:status:update", objSet sd "timestamp" (.vDate now),
        membersOf st ("user:" ++ uid)⟩,
       ⟨"kyc:admin:update",
        objSet (objExtend [("userId", .vStr uid)] sd) "timestamp" (.vDate now),
        membersOf st "admin"⟩] : List EmitRecord).getD 1 ⟨"", [], []⟩).payload)
      = objSet (objExtend [("userId", .vStr uid)] sd) "timestamp" (.vDate now) from rfl]
    rw [objGet_objSet_ne _ _ _ _ hk]
    by_cases hmem : k ∈ sd.map Prod.fst
    · exact objGet_objExtend_mem _ _ _ hnd hmem
    · rw [objGet_objExtend_not_mem _ _ _ hmem, objGet_singleton_ne _ _ _ hk2,
        objGet_eq_undefined_of_not_mem _ _ hmem]
  · intro hmem
    rw [nthEvent, he]
    rw [show ((([⟨"kyc:status:update", objSet sd "timestamp" (.vDate now),
        membersOf st ("user:" ++ uid)⟩,
       ⟨"kyc:admin:update",
        objSet (objExtend [("userId", .vStr uid)] sd) "timestamp" (.vDate now),
        membersOf st "admin"⟩] : List EmitRecord).getD 1 ⟨"", [], []⟩).payload)
      = objSet (objExtend [("userId", .vStr uid)] sd) "timestamp" (.vDate now) from rfl]
    rw [objGet_objSet_ne _ _ _ _ (by decide : ("userId" : String) ≠ "timestamp"),
      objGet_objExtend_not_mem _ _ _ hmem]
    rfl

/-- Witness for C5's amended theorem at the admin-online scenario. -/
theorem C5_witness :
    ((kycStatusData.map Prod.fst).Nodup)
    ∧ (newEvents stAdminOnline (emitKYCStatusUpdate 5 stAdminOnline "u1" kycStatusData)).map
        EmitRecord.event = ["kyc:status:update", "kyc:admin:update"]
    ∧ objGet (nthEvent stAdminOnline
        (emitKYCStatusUpdate 5 stAdminOnline "u1" kycStatusData) 0).payload "status"
        = .vStr "approved"
    ∧ objGet (nthEvent stAdminOnline
        (emitKYCStatusUpdate 5 stAdminOnline "u1" kycStatusData) 1).payload "userId"
        = .vStr "u1" := by
  have h := C5_kyc_fanout 5 stAdminOnline "u1" kycStatusData (by decide)
  exact ⟨by decide, h.1, h.2.2.2.1 "status" (by decide),
    h.2.2.2.2.2.2 (by decide)⟩

/-- The two emit records appended by `notifyNewApplication`. -/
theorem newEvents_notifyNewApplication (now : Nat) (st : State) (ad : Obj)
    (emp : String) :
    newEvents st (notifyNewApplication now st ad emp) =
      [⟨"new_application", newApplicationPayload now ad, membersOf st ("user:" ++ emp)⟩,
       ⟨"new_application", newApplicationPayload now ad,
        membersOf st ("job:" ++ jsToString (objGet ad "jobId"))⟩] := by
  simp [newEvents, notifyNewApplication, emitToRoom, membersOf, List.append_assoc]

/-- Claim C6, confirmed: a connection B that is a member of employer u2's
personal group and of the topic group for the application's job receives
exactly two `new_application` events from one dispatch, each carrying the
application payload (under the `application` field) plus a timestamp. -/
theorem C6_double_delivery (now : Nat) (st : State) (ad : Obj) (emp sid : String)
    (h1 : (sid, "user:" ++ emp) ∈ st.rooms)
    (h2 : (sid, "job:" ++ jsToString (objGet ad "jobId")) ∈ st.rooms) :
    ((newEvents st (notifyNewApplication now st ad emp)).filter
        (fun r => decide (sid ∈ r.recipients))).length = 2
    ∧ (∀ r ∈ newEvents st (notifyNewApplication now st ad emp),
        r.event = "new_application"
        ∧ objGet r.payload "application" = .vObj ad
        ∧ objGet r.payload "timestamp" = .vStr (isoString now)) := by
  have he := newEvents_notifyNewApplication now st ad emp
  constructor
  · rw [he]
    have m1 : sid ∈ membersOf st ("user:" ++ emp) := (mem_membersOf st sid _).mpr h1
    have m2 : sid ∈ membersOf st ("job:" ++ jsToString (objGet ad "jobId")) :=
      (mem_membersOf st sid _).mpr h2
    simp [List.filter_cons, m1, m2]
  · intro r hr
    rw [he] at hr
    rcases List.mem_cons.mp hr with h | h
    · subst h
      exact ⟨rfl, rfl, rfl⟩
    · rcases List.mem_cons.mp h with h' | h'
      · subst h'
        exact ⟨rfl, rfl, rfl⟩
      · simp at h'

/-- Connection B of employer u2, as in the C6 scenario. -/
def sockB : AuthSocket := ⟨"B", some "u2", some "employer", some "u2@mail"⟩

/-- State in which B sits in u2's personal room and in topic room job:42. -/
def stEmployerJoined : State := ⟨[("u2", "B")], [("B", "user:u2"), ("B", "job:42")], []⟩

/-- The application payload of the C6 scenario, for job 42. -/
def appData42 : Obj := [("jobId", .vStr "42"), ("jobTitle", .vStr "Barista")]

/-- Witness for C6 at the employer-joined scenario. -/
theorem C6_witness :
    ("B", "user:" ++ "u2") ∈ stEmployerJoined.rooms
    ∧ ("B", "job:" ++ jsToString (objGet appData42 "jobId")) ∈ stEmployerJoined.rooms
    ∧ ((newEvents stEmployerJoined
          (notifyNewApplication 9 stEmployerJoined appData42 "u2")).filter
        (fun r => decide (("B" : String) ∈ r.recipients))).length = 2 := by
  have h := C6_double_delivery 9 stEmployerJoined appData42 "u2" "B" (by decide) (by decide)
  exact ⟨by decide, by decide, h.1⟩

/-- Claim C7, confirmed: `join_job_room` is idempotent — a second join of the
same topic by the same connection leaves the state unchanged — and
`leave_job_room` of a topic the connection is not a member of is a no-op that
raises no error and changes nothing. -/
theorem C7_join_leave_idempotent (st : State) (s : AuthSocket) (arg : JsVal) :
    handleJoinJobRoom (handleJoinJobRoom st s arg) s arg = handleJoinJobRoom st s arg
    ∧ ((s.sid, "job:" ++ jsToString arg) ∉ st.rooms → handleLeaveJobRoom st s arg = st) :=
  ⟨roomJoin_of_mem _ _ _ (mem_rooms_self_roomJoin st s.sid _),
   fun h => roomLeave_of_not_mem st s.sid _ h⟩

/-- Witness for C7: joining job:42 twice equals joining once, and leaving a
never-joined room changes nothing. -/
theorem C7_witness :
    handleJoinJobRoom (handleJoinJobRoom stEmployerJoined sockB (.vStr "7")) sockB (.vStr "7")
      = handleJoinJobRoom stEmployerJoined sockB (.vStr "7")
    ∧ ("B", "job:" ++ jsToString (.vStr "7")) ∉ stEmployerJoined.rooms
    ∧ handleLeaveJobRoom stEmployerJoined sockB (.vStr "7") = stEmployerJoined := by
  have h := C7_join_leave_idempotent stEmployerJoined sockB (.vStr "7")
  exact ⟨h.1, by decide, h.2 (by decide)⟩

/-- Claim C8, confirmed: for an authenticated connection, membership in the
personal group `user:{userId}`, the role group and (for admins) the `admin`
group is established at connection setup and cannot be altered by any sequence
of `join_job_room`/`leave_job_room` messages with arbitrary client-supplied
topic arguments — those handlers only ever touch rooms of the form `job:...`,
and (given a role name that is not itself a `job:...` string) the identity
rooms are never of that form. -/
theorem C8_identity_groups_immutable (now : Nat) (st : State) (s : AuthSocket)
    (u r : String) (msgs : List ClientMsg)
    (hu : s.userId = some u) (hr : s.userType = some r)
    (hrole : ∀ x, r ≠ "job:" ++ x) :
    ((s.sid, "user:" ++ u) ∈ (processMsgs (handleConnection now st s) s msgs).rooms)
    ∧ ((s.sid, r) ∈ (processMsgs (handleConnection now st s) s msgs).rooms)
    ∧ (r = "admin" →
        (s.sid, "admin") ∈ (processMsgs (handleConnection now st s) s msgs).rooms)
    ∧ (∀ c g, (∀ x, g ≠ "job:" ++ x) →
        ((c, g) ∈ (processMsgs (handleConnection now st s) s msgs).rooms
          ↔ (c, g) ∈ (handleConnection now st s).rooms)) := by
  have hinv : ∀ c g, (∀ x, g ≠ "job:" ++ x) →
      ((c, g) ∈ (processMsgs (handleConnection now st s) s msgs).rooms
        ↔ (c, g) ∈ (handleConnection now st s).rooms) :=
    fun c g hg => processMsgs_rooms_non_job msgs _ s c g hg
  refine ⟨?_, ?_, ?_, hinv⟩
  · exact (hinv s.sid _ (user_room_ne_job u)).mpr
      ((handleConnection_rooms_spec now st s s.sid _).mpr
        (Or.inr (Or.inl ⟨u, hu, rfl, rfl⟩)))
  · exact (hinv s.sid r hrole).mpr
      ((handleConnection_rooms_spec now st s s.sid r).mpr
        (Or.inr (Or.inr (Or.inl ⟨r, hr, rfl, rfl⟩))))
  · intro hadm
    exact (hinv s.sid "admin" admin_ne_job).mpr
      ((handleConnection_rooms_spec now st s s.sid "admin").mpr
        (Or.inr (Or.inr (Or.inr ⟨hadm ▸ hr, rfl, rfl⟩))))

/-- An admin's socket, for the C8 witness. -/
def sockAdm : AuthSocket := ⟨"A", some "u9", some "admin", some "adm@mail"⟩

/-- A message sequence with arbitrary client-supplied topic identifiers,
including a malformed one. -/
def msgsW : List ClientMsg := [.joinJob (.vStr "42"), .leaveJob .vUndefined, .leaveJob (.vStr "42")]

/-- Witness for C8 with an admin connection and a mixed message sequence. -/
theorem C8_witness :
    sockAdm.userId = some "u9" ∧ sockAdm.userType = some "admin"
    ∧ ("A", "user:" ++ "u9") ∈ (processMsgs (handleConnection 0 ⟨[], [], []⟩ sockAdm)
        sockAdm msgsW).rooms
    ∧ ("A", "admin") ∈ (processMsgs (handleConnection 0 ⟨[], [], []⟩ sockAdm)
        sockAdm msgsW).rooms := by
  have h := C8_identity_groups_immutable 0 ⟨[], [], []⟩ sockAdm "u9" "admin" msgsW
    rfl rfl admin_ne_job
  exact ⟨rfl, rfl, h.1, h.2.2.1 rfl⟩

/-- A fresh connection of user u1 that has joined no topic group, for the C9
counterexample. -/
def sockC9 : AuthSocket := ⟨"c1", some "u1", some "student", some "u1@mail"⟩

/-- State holding only sockC9's identity rooms. -/
def stC9 : State := ⟨[("u1", "c1")], [("c1", "user:u1"), ("c1", "student")], []⟩

/-- Claim C9, counterexample: a `join_job_room` message with a missing topic id
is not discarded without effect — the handler interpolates the missing argument
as the string "undefined" and the connection joins the group "job:undefined",
a group membership change. -/
theorem C9_counterexample :
    (handleJoinJobRoom stC9 sockC9 JsVal.vUndefined).rooms ≠ stC9.rooms
    ∧ ("c1", "job:undefined") ∈ (handleJoinJobRoom stC9 sockC9 JsVal.vUndefined).rooms
    ∧ ("c1", "job:undefined") ∉ stC9.rooms := by
  refine ⟨by decide, by decide, by decide⟩

/-- Claim C9 as amended: a join-topic message with a missing topic id is not
discarded: the missing id is interpolated as the string "undefined" and the
connection joins the group "job:undefined" (a leave with a missing id likewise
targets "job:undefined"); memberships of every other (connection, group) pair
are unchanged, and the connection remains open — the handler never terminates
the connection. -/
theorem C9_missing_id_joins_undefined (st : State) (s : AuthSocket) :
    ((s.sid, "job:undefined") ∈ (handleJoinJobRoom st s JsVal.vUndefined).rooms)
    ∧ (∀ c g, (c, g) ≠ (s.sid, "job:undefined") →
        ((c, g) ∈ (handleJoinJobRoom st s JsVal.vUndefined).rooms ↔ (c, g) ∈ st.rooms))
    ∧ (∀ c g, (c, g) ≠ (s.sid, "job:undefined") →
        ((c, g) ∈ (handleLeaveJobRoom st s JsVal.vUndefined).rooms ↔ (c, g) ∈ st.rooms)) := by
  have hkey : "job:" ++ jsToString JsVal.vUndefined = "job:undefined" := rfl
  refine ⟨?_, ?_, ?_⟩
  · have := mem_rooms_self_roomJoin st s.sid ("job:" ++ jsToString JsVal.vUndefined)
    rwa [hkey] at this
  · intro c g hne
    rw [handleJoinJobRoom, mem_rooms_roomJoin]
    constructor
    · rintro (h | ⟨rfl, rfl⟩)
      · exact h
      · exact absurd rfl hne
    · exact Or.inl
  · intro c g hne
    rw [handleLeaveJobRoom, mem_rooms_roomLeave]
    constructor
    · exact And.left
    · intro h
      exact ⟨h, hkey ▸ hne⟩

/-- Witness for C9's amended theorem at the fresh-connection state. -/
theorem C9_witness :
    ("c1", "job:undefined") ∈ (handleJoinJobRoom stC9 sockC9 JsVal.vUndefined).rooms
    ∧ (("c1", "user:u1") ∈ (handleJoinJobRoom stC9 sockC9 JsVal.vUndefined).rooms
        ↔ ("c1", "user:u1") ∈ stC9.rooms)
    ∧ (("c1", "student") ∈ (handleLeaveJobRoom stC9 sockC9 JsVal.vUndefined).rooms
        ↔ ("c1", "student") ∈ stC9.rooms) := by
  have h := C9_missing_id_joins_undefined stC9 sockC9
  exact ⟨h.1, h.2.1 "c1" "user:u1" (by decide), h.2.2 "c1" "student" (by decide)⟩

/-- Claim C10, confirmed: the server handles an inbound `kyc:status:request`
message; when the requesting connection carries a userId, it replies — to that
connection only — with one `kyc:status:response` event carrying that
connection's own userId and a timestamp; when no userId is attached, it sends
nothing and the state is unchanged. -/
theorem C10_kyc_status_request (now : Nat) (st : State) (s : AuthSocket) :
    (∀ u, s.userId = some u →
      newEvents st (handleKycStatusRequest now st s) =
        [⟨"kyc:status:response", [("userId", .vStr u), ("timestamp", .vDate now)], [s.sid]⟩]
      ∧ (∀ c, c ≠ s.sid →
          deliveredTo (handleKycStatusRequest now st s) c = deliveredTo st c))
    ∧ (s.userId = none → handleKycStatusRequest now st s = st) := by
  constructor
  · intro u hu
    constructor
    · simp [handleKycStatusRequest, hu, emitToSocket, newEvents]
    · intro c hc
      simp only [handleKycStatusRequest, hu, emitToSocket, deliveredTo, List.filter_append]
      rw [show (([⟨"kyc:status:response",
          [("userId", JsVal.vStr u), ("timestamp", JsVal.vDate now)], [s.sid]⟩] :
            List EmitRecord).filter (fun r => decide (c ∈ r.recipients))) = [] from by
        simp [List.filter_cons, hc]]
      simp
  · intro hn
    simp [handleKycStatusRequest, hn]

/-- Witness for C10: both the userId-present and the userId-absent branches at
concrete sockets. -/
theorem C10_witness :
    sockC9.userId = some "u1"
    ∧ newEvents stC9 (handleKycStatusRequest 3 stC9 sockC9) =
        [⟨"kyc:status:response", [("userId", .vStr "u1"), ("timestamp", .vDate 3)], ["c1"]⟩]
    ∧ (⟨"anon", none, none, none⟩ : AuthSocket).userId = none
    ∧ handleKycStatusRequest 3 stC9 ⟨"anon", none, none, none⟩ = stC9 := by
  have h1 := (C10_kyc_status_request 3 stC9 sockC9).1 "u1" rfl
  have h2 := (C10_kyc_status_request 3 stC9 ⟨"anon", none, none, none⟩).2 rfl
  exact ⟨rfl, h1.1, rfl, h2⟩
